import Mathlib

/-!
Verification of the logging subsystem of `src/utils/logging.py`.

The Python module defines:
  * `SetColor` — a `logging.Formatter` subclass that picks a colorized
    template keyed by the record's `levelno`;
  * `SetLogConfig` — attaches a console handler and an optional rotating
    file handler to the root logger, guarded by `hasHandlers()`;
  * `StreamToLogger` — a stream adapter that buffers length-1 lines and
    forwards the other lines to `logger.log`;
  * `SetLogger` — a facade that derives the log-file path, calls
    `SetLogConfig`, and replaces `sys.stderr` with a `StreamToLogger`
    at most once (guarded by `hasattr(sys.stderr, "logger")`).

Everything below is a shallow embedding of that module: strings are Lean
strings, Python `int` log levels are `Nat` (logging.DEBUG = 10,
INFO = 20, WARNING = 30, ERROR = 40, CRITICAL = 50), handler lists are
Lean lists, and the side effect `logger.log(level, msg)` is reified as a
`LogCall` value.
-/

namespace RcaToy

/-- Python `str.isspace` for a single character: the Unicode whitespace
set used by `str.rstrip()` (ASCII space, `\t`, `\n`, `\v`, `\f`, `\r`,
the C1 separators 0x1c–0x1f, NEL 0x85, NBSP 0xa0 and the Unicode space
code points). -/
def pyIsSpace (c : Char) : Bool :=
  (0x09 ≤ c.toNat && c.toNat ≤ 0x0d) || c.toNat == 0x20 ||
  (0x1c ≤ c.toNat && c.toNat ≤ 0x1f) || c.toNat == 0x85 || c.toNat == 0xa0 ||
  c.toNat == 0x1680 || (0x2000 ≤ c.toNat && c.toNat ≤ 0x200a) ||
  c.toNat == 0x2028 || c.toNat == 0x2029 || c.toNat == 0x202f ||
  c.toNat == 0x205f || c.toNat == 0x3000

/-- Python `str.rstrip()`: drop trailing whitespace characters. -/
def pyRstrip (s : String) : String :=
  ⟨(s.data.reverse.dropWhile pyIsSpace).reverse⟩

/-- The line boundaries recognised by Python `str.splitlines()`. -/
def isLineBreak (c : Char) : Bool :=
  c.toNat == 0x0a || c.toNat == 0x0b || c.toNat == 0x0c || c.toNat == 0x0d ||
  c.toNat == 0x1c || c.toNat == 0x1d || c.toNat == 0x1e || c.toNat == 0x85 ||
  c.toNat == 0x2028 || c.toNat == 0x2029

/-- Worker for `pySplitlines`; `acc` holds the current line reversed.
`"\r\n"` counts as a single boundary; a final fragment without a
terminator is kept, and a terminator at the end adds no empty line. -/
def splitlinesAux : List Char → List Char → List String
  | [], acc => if acc.isEmpty then [] else [⟨acc.reverse⟩]
  | '\r' :: '\n' :: rest, acc => (⟨acc.reverse⟩ : String) :: splitlinesAux rest []
  | c :: rest, acc =>
    if isLineBreak c then (⟨acc.reverse⟩ : String) :: splitlinesAux rest []
    else splitlinesAux rest (c :: acc)

/-- Python `str.splitlines()`. -/
def pySplitlines (s : String) : List String := splitlinesAux s.data []

/-- A reified call `logger.log(level, msg)` made by `StreamToLogger.write`. -/
structure LogCall where
  level : Nat
  msg : String
  deriving DecidableEq, Repr

/-- State of `StreamToLogger.__init__(logger, log_level=logging.ERROR)`:
holds the target severity (default 40 = ERROR) and the line buffer
`self.linebuf = []`.  The wrapped `logging.Logger` object itself plays
no part in `write` beyond receiving the reified `LogCall`s, so it is not
stored. -/
structure StreamToLogger where
  log_level : Nat := 40
  linebuf : List String := []
  deriving DecidableEq, Repr

/-- The body of the `for line in buf.rstrip().splitlines():` loop in
`StreamToLogger.write`, threading the pair (line buffer, log calls made
so far): a line of length exactly 1 is appended to the buffer; any
other line is logged as the concatenation of the buffered fragments
with `line.rstrip()`, and the buffer is reset to `[]`. -/
def writeLine (lvl : Nat) (st : List String × List LogCall) (line : String) :
    List String × List LogCall :=
  if line.length = 1 then (st.1 ++ [line], st.2)
  else ([], st.2 ++ [⟨lvl, String.join (st.1 ++ [pyRstrip line])⟩])

/-- Method `StreamToLogger.write(buf)`: fold `writeLine` over
`buf.rstrip().splitlines()`, returning the updated adapter and the log
calls it made. -/
def StreamToLogger.write (t : StreamToLogger) (buf : String) :
    StreamToLogger × List LogCall :=
  let r := (pySplitlines (pyRstrip buf)).foldl (writeLine t.log_level) (t.linebuf, [])
  ({ t with linebuf := r.1 }, r.2)

/-! Part two: the colorizing formatter `SetColor`. -/

/-- Escape code `SetColor.grey`. -/
def grey : String := "\x1b[38;20m"

/-- Escape code `SetColor.yellow`. -/
def yellow : String := "\x1b[33;20m"

/-- Escape code `SetColor.red`. -/
def red : String := "\x1b[31;20m"

/-- Escape code `SetColor.bold_red`. -/
def bold_red : String := "\x1b[31;1m"

/-- Escape code `SetColor.bold_light_red` (the escape itself is malformed in the
source, `"\x1b[91m;1m"`; we copy it verbatim). -/
def bold_light_red : String := "\x1b[91m;1m"

/-- Escape code `SetColor.reset`. -/
def reset : String := "\x1b[0m"

/-- Level name `record.levelname`, as the stdlib `logging` module derives it from
`record.levelno` (`logging.getLevelName`). -/
def levelname (levelno : Nat) : String :=
  if levelno = 0 then "NOTSET"
  else if levelno = 10 then "DEBUG"
  else if levelno = 20 then "INFO"
  else if levelno = 30 then "WARNING"
  else if levelno = 40 then "ERROR"
  else if levelno = 50 then "CRITICAL"
  else "Level " ++ toString levelno

/-- A `logging.LogRecord`, restricted to the attributes the module's
format strings consume.  `asctime` stands for the already-rendered
timestamp and `levelname` is derived from `levelno` (see `levelname`). -/
structure LogRecord where
  asctime : String
  funcName : String
  levelno : Nat
  message : String
  filename : String
  lineno : Nat
  deriving DecidableEq, Repr

/-- The template
`log_format = "%(asctime)s - %(funcName)s - %(levelname)s" + "- %(message)s (%(filename)s:%(lineno)d)"`
filled in with a record's fields.  Note the source concatenation leaves
no space between `%(levelname)s` and `"- "`. -/
def log_format_filled (r : LogRecord) : String :=
  r.asctime ++ " - " ++ r.funcName ++ " - " ++ levelname r.levelno ++
    "- " ++ r.message ++ " (" ++ r.filename ++ ":" ++ toString r.lineno ++ ")"

/-- The key type of the `SetColor.FORMATS` dict: five entries are keyed
by integer levels, and the sixth by `logging.exception` — a function
object, which no integer `record.levelno` can ever equal. -/
inductive FormatKey
  | level (n : Nat)
  | exceptionFn
  deriving DecidableEq, Repr

/-- A value of the `FORMATS` dict, `color + log_format + reset`, kept as
the pair of strings wrapped around the shared template `log_format`. -/
structure ColorTmpl where
  pre : String
  post : String
  deriving DecidableEq, Repr

/-- Render a `FORMATS` value on a record: the wrapping escapes around
the filled template (the second `logging.Formatter` created inside
`SetColor.format`). -/
def ColorTmpl.render (t : ColorTmpl) (r : LogRecord) : String :=
  t.pre ++ log_format_filled r ++ t.post

/-- The dict `SetColor.FORMATS` (insertion-ordered, as an association
list). -/
def FORMATS : List (FormatKey × ColorTmpl) :=
  [ (.level 10, ⟨grey, reset⟩),
    (.level 20, ⟨grey, reset⟩),
    (.level 30, ⟨yellow, reset⟩),
    (.level 40, ⟨red, reset⟩),
    (.level 50, ⟨bold_red, reset⟩),
    (.exceptionFn, ⟨bold_light_red, reset⟩) ]

/-- Python `dict.get(key, default)` over an association list. -/
def dict_get : List (FormatKey × ColorTmpl) → FormatKey → ColorTmpl → ColorTmpl
  | [], _, dflt => dflt
  | (k, v) :: rest, key, dflt => if key = k then v else dict_get rest key dflt

/-- Lookup `self.FORMATS.get(record.levelno, self.grey + self.log_format + self.reset)`:
dict lookup with the plain/grey template as the default. -/
def FORMATS_get (k : FormatKey) : ColorTmpl :=
  dict_get FORMATS k ⟨grey, reset⟩

/-- Method `SetColor.format(record)`: pick the template keyed by
`record.levelno` (grey by default) and render the record with it. -/
def SetColor_format (r : LogRecord) : String :=
  (FORMATS_get (.level r.levelno)).render r

/-- The file handler's formatter, `logging.Formatter(log_format)` built
in `SetLogConfig.__init__`: the same fields, with no color escapes. -/
def file_handler_format (r : LogRecord) : String :=
  log_format_filled r

/-- Modelled from the spec: the layout the spec claims for both
formatters, `"<timestamp> - <function> - <level> - <message> (<file>:<line>)"`,
with `" - "` (space, dash, space) between every pair of fields,
including between the level and the message. -/
def spec_layout (r : LogRecord) : String :=
  r.asctime ++ " - " ++ r.funcName ++ " - " ++ levelname r.levelno ++
    " - " ++ r.message ++ " (" ++ r.filename ++ ":" ++ toString r.lineno ++ ")"

/-! Part three: handler installation by `SetLogConfig`. -/

/-- A handler attached to the root logger: either the console
`StreamHandler(sys.stdout)` carrying a `SetColor` formatter, or the
`RotatingFileHandler` with its path and rotation policy. -/
inductive Handler
  | console (level : Nat)
  | file (path : String) (level maxBytes backupCount : Nat)
  deriving DecidableEq, Repr

/-- The root `logging.Logger`: its threshold level and its ordered
handler list. -/
structure Logger where
  level : Nat
  handlers : List Handler
  deriving DecidableEq, Repr

/-- The root logger of a fresh process: level WARNING (30), no
handlers. -/
def emptyLogger : Logger := ⟨30, []⟩

/-- Predicate `Logger.hasHandlers()` for the root logger (it has no ancestors, so
this is just non-emptiness of its own handler list). -/
def hasHandlers (lg : Logger) : Bool := !lg.handlers.isEmpty

/-- The arguments of `SetLogConfig.__init__`, with the source's default
values (`logging.INFO = 20`, no file, 200000000 bytes, 5 backups). -/
structure LogConfigArgs where
  log_level : Nat := 20
  log_file : Option String := none
  max_bytes : Nat := 200000000
  backup_counts : Nat := 5
  deriving DecidableEq, Repr

/-- Constructor `SetLogConfig.__init__`: set the root logger's level; if it already
has handlers, stop (the guard `if not self.logger.hasHandlers()`);
otherwise attach the console handler, and, when `log_file` is truthy
(a non-`None`, non-empty string), the rotating file handler.  The
intervening `logging.basicConfig(...)` call is a no-op: by that point
the root logger already holds the just-added console handler, and
`basicConfig` without `force` returns immediately when the root logger
has handlers. -/
def SetLogConfig_init (lg : Logger) (a : LogConfigArgs) : Logger :=
  let lg := { lg with level := a.log_level }
  if hasHandlers lg then lg
  else
    let lg := { lg with handlers := lg.handlers ++ [.console a.log_level] }
    match a.log_file with
    | none => lg
    | some f =>
      if f = "" then lg
      else
        { lg with
          handlers := lg.handlers ++ [.file f a.log_level a.max_bytes a.backup_counts] }

/-- Number of console handlers attached. -/
def countConsole (hs : List Handler) : Nat :=
  hs.countP fun h => match h with | .console _ => true | _ => false

/-- Number of rotating-file handlers attached. -/
def countFile (hs : List Handler) : Nat :=
  hs.countP fun h => match h with | .file _ _ _ _ => true | _ => false

/-! Part four: the facade `SetLogger` and the stderr redirection guard. -/

/-- The object bound to `sys.stderr`: either the original stream (which
carries no `logger` attribute) or an installed `StreamToLogger` with
its severity. -/
inductive Stderr
  | original
  | redirector (log_level : Nat)
  deriving DecidableEq, Repr

/-- Guard `hasattr(sys.stderr, "logger")`: false for the original stream,
true for any `StreamToLogger` (whose `__init__` sets `self.logger`). -/
def hasLoggerAttr : Stderr → Bool
  | .original => false
  | .redirector _ => true

/-- The process-wide state `SetLogger.__init__` acts on: the root
logger, the object bound to `sys.stderr`, and a count of how many
`StreamToLogger` instances have ever been installed over stderr. -/
structure ProcState where
  logger : Logger
  stderr : Stderr
  installs : Nat
  deriving DecidableEq, Repr

/-- The arguments of `SetLogger.__init__` with the source's defaults. -/
structure SetLoggerArgs where
  log_path : Option String := none
  log_name : Option String := none
  log_level : Nat := 20
  deriving DecidableEq, Repr

/-- Constructor `SetLogger.__init__`: default the path to `"."`, build
`log_file = f"{log_path!s}/{log_name!s}"` when a name is given, call
`SetLogConfig`, and replace `sys.stderr` by `StreamToLogger(self.logger)`
(default severity 40) unless it already has a `logger` attribute.
(`Path(log_path).mkdir(...)` is a filesystem effect with no bearing on
this state.) -/
def SetLogger_init (st : ProcState) (a : SetLoggerArgs) : ProcState :=
  let path := a.log_path.getD "."
  let log_file := a.log_name.map (fun n => path ++ "/" ++ n)
  let logger := SetLogConfig_init st.logger ⟨a.log_level, log_file, 200000000, 5⟩
  if hasLoggerAttr st.stderr then
    { logger := logger, stderr := st.stderr, installs := st.installs }
  else
    { logger := logger, stderr := .redirector 40, installs := st.installs + 1 }

/-- Process state at startup: fresh root logger, original stderr, no
redirector ever installed. -/
def initialState : ProcState := ⟨emptyLogger, .original, 0⟩

/-- A concrete record used to exercise the formatters. -/
def sampleRecord : LogRecord :=
  ⟨"2024-01-01 10:00:00", "main", 20, "hello", "a.py", 3⟩

/-! Part five: the theorems.  Helper lemmas come before the claim
theorems that use them. -/

/-- Helper: the dict lookup of `SetColor.format`, evaluated over the
integer keys.  The `exceptionFn` entry never matches an integer level,
so the result is one of the four reachable color templates. -/
theorem FORMATS_get_level (n : Nat) :
    FORMATS_get (.level n) =
      if n = 30 then ⟨yellow, reset⟩
      else if n = 40 then ⟨red, reset⟩
      else if n = 50 then ⟨bold_red, reset⟩
      else ⟨grey, reset⟩ := by
  simp only [FORMATS_get, FORMATS, dict_get, FormatKey.level.injEq]
  by_cases h10 : n = 10 <;> by_cases h20 : n = 20 <;> by_cases h30 : n = 30 <;>
    by_cases h40 : n = 40 <;> by_cases h50 : n = 50 <;> simp_all

/-- Helper: every template the lookup can return closes with the reset
escape. -/
theorem FORMATS_get_post (n : Nat) : (FORMATS_get (.level n)).post = reset := by
  rw [FORMATS_get_level]
  split <;> try rfl
  split <;> try rfl
  split <;> rfl

/-- Helper: splitting the character data of the literal `" ("` at the
space. -/
theorem data_space_paren :
    (" (" : String).data = (" " : String).data ++ ("(" : String).data := rfl

/-- Helper: the handlers a `SetLogConfig` call installs on a logger
that has none yet: the console handler, then the file handler when
`log_file` is a truthy string. -/
theorem SetLogConfig_init_fresh (lv : Nat) (a : LogConfigArgs) :
    (SetLogConfig_init ⟨lv, []⟩ a).handlers =
      .console a.log_level ::
        (match a.log_file with
         | none => []
         | some f =>
           if f = "" then []
           else [.file f a.log_level a.max_bytes a.backup_counts]) := by
  cases hf : a.log_file with
  | none => simp [SetLogConfig_init, hasHandlers, hf]
  | some f =>
    by_cases he : f = "" <;> simp [SetLogConfig_init, hasHandlers, hf, he]

/-- Helper: once the logger has any handler, `SetLogConfig` leaves the
handler list untouched. -/
theorem SetLogConfig_init_preserves (lg : Logger) (a : LogConfigArgs)
    (h : lg.handlers ≠ []) : (SetLogConfig_init lg a).handlers = lg.handlers := by
  obtain ⟨lv, hs⟩ := lg
  cases hs with
  | nil => exact absurd rfl h
  | cons x xs => rfl

/-- Helper: handler counts after a `SetLogConfig` call on a fresh
logger. -/
theorem counts_after_fresh (lv : Nat) (a : LogConfigArgs) :
    countConsole (SetLogConfig_init ⟨lv, []⟩ a).handlers = 1 ∧
    countFile (SetLogConfig_init ⟨lv, []⟩ a).handlers =
      (match a.log_file with
       | none => 0
       | some f => if f = "" then 0 else 1) := by
  rw [SetLogConfig_init_fresh]
  cases hf : a.log_file with
  | none => simp [countConsole, countFile]
  | some f =>
    by_cases he : f = "" <;> simp [countConsole, countFile, he, List.countP_cons]

/-- Helper: the at-most-one-of-each-handler invariant is preserved by
any sequence of `SetLogConfig` calls. -/
theorem foldl_counts (seq : List LogConfigArgs) (lg : Logger)
    (h : countConsole lg.handlers ≤ 1 ∧ countFile lg.handlers ≤ 1) :
    countConsole ((seq.foldl SetLogConfig_init lg).handlers) ≤ 1 ∧
    countFile ((seq.foldl SetLogConfig_init lg).handlers) ≤ 1 := by
  induction seq generalizing lg with
  | nil => exact h
  | cons a rest ih =>
    apply ih
    obtain ⟨lv, hs⟩ := lg
    cases hs with
    | nil =>
      have hc := counts_after_fresh lv a
      refine ⟨le_of_eq hc.1, ?_⟩
      rw [hc.2]
      cases hf : a.log_file with
      | none => decide
      | some f => by_cases he : f = "" <;> simp [he]
    | cons x xs =>
      rw [SetLogConfig_init_preserves ⟨lv, x :: xs⟩ a (by simp)]
      exact h

/-- Claim C1 (confirmed): starting from a fresh root logger, any
sequence of `SetLogConfig` invocations leaves at most one console
handler and at most one file handler installed; in particular two calls
with identical arguments install exactly one console handler, and
exactly one file handler when a truthy (non-`None`, non-empty) file
path is given. -/
theorem c1_idempotent_handlers :
    (∀ seq : List LogConfigArgs,
      countConsole ((seq.foldl SetLogConfig_init emptyLogger).handlers) ≤ 1 ∧
      countFile ((seq.foldl SetLogConfig_init emptyLogger).handlers) ≤ 1) ∧
    (∀ a : LogConfigArgs,
      countConsole ((SetLogConfig_init (SetLogConfig_init emptyLogger a) a).handlers) = 1 ∧
      countFile ((SetLogConfig_init (SetLogConfig_init emptyLogger a) a).handlers) =
        (match a.log_file with
         | none => 0
         | some f => if f = "" then 0 else 1)) := by
  constructor
  · intro seq
    exact foldl_counts seq emptyLogger ⟨by decide, by decide⟩
  · intro a
    have h1 : (SetLogConfig_init emptyLogger a).handlers ≠ [] := by
      rw [show emptyLogger = ⟨30, []⟩ from rfl, SetLogConfig_init_fresh]
      simp
    rw [show (SetLogConfig_init (SetLogConfig_init emptyLogger a) a).handlers =
      (SetLogConfig_init emptyLogger a).handlers from
      SetLogConfig_init_preserves _ a h1]
    exact counts_after_fresh 30 a

/-- Claim C2 fails as stated: on the chunk `"ab \ncd"` the first line is
`"ab "`, whose length is 3, so by the claim it should be logged as the
concatenation of the (empty) buffer with that line, i.e. `"ab "`; the
code logs `line.rstrip()`, so the message is `"ab"`. -/
theorem c2_counterexample :
    (StreamToLogger.write {} "ab \ncd").2.map LogCall.msg = ["ab", "cd"] ∧
    (StreamToLogger.write {} "ab \ncd").2.map LogCall.msg ≠
      [String.join ([] ++ ["ab "]), "cd"] := by
  refine ⟨by decide, by decide⟩

/-- Claim C2 (amended): `write` trims the chunk's trailing whitespace,
splits it into lines and folds over them; a line of length exactly 1 is
appended to the buffer and emits nothing; any other line emits exactly
one log record whose message is the in-order concatenation of the
buffered fragments with that line *after trimming the line's trailing
whitespace*, leaving the buffer empty; and `write("a\nbc\n")` buffers
`"a"` and emits the single record `"abc"`. -/
theorem c2_line_handling :
    (∀ t : StreamToLogger, ∀ chunk : String,
      StreamToLogger.write t chunk =
        (let r := (pySplitlines (pyRstrip chunk)).foldl (writeLine t.log_level)
          (t.linebuf, [])
         ({ t with linebuf := r.1 }, r.2))) ∧
    (∀ lvl : Nat, ∀ buf : List String, ∀ calls : List LogCall, ∀ line : String,
      line.length = 1 → writeLine lvl (buf, calls) line = (buf ++ [line], calls)) ∧
    (∀ lvl : Nat, ∀ buf : List String, ∀ calls : List LogCall, ∀ line : String,
      line.length ≠ 1 →
        writeLine lvl (buf, calls) line =
          ([], calls ++ [⟨lvl, String.join (buf ++ [pyRstrip line])⟩])) ∧
    StreamToLogger.write {} "a\nbc\n" = ({}, [⟨40, "abc"⟩]) := by
  refine ⟨fun t chunk => rfl, ?_, ?_, by decide⟩
  · intro lvl buf calls line h
    simp [writeLine, h]
  · intro lvl buf calls line h
    simp [writeLine, h]

/-- Witness for C2: the two per-line cases of `c2_line_handling`
evaluated at concrete inputs — the length-1 line `"x"` is buffered, and
the line `"bc"` against the buffer `["a"]` emits the record `"abc"`. -/
theorem c2_witness :
    writeLine 40 ([], []) "x" = (["x"], []) ∧
    writeLine 40 (["a"], []) "bc" = ([], [⟨40, "abc"⟩]) := by
  constructor
  · exact c2_line_handling.2.1 40 [] [] "x" (by decide)
  · have h := c2_line_handling.2.2.1 40 ["a"] [] "bc" (by decide)
    rw [h]
    decide

/-- Claim C3 fails as stated: the code builds `log_format` as
`"...%(levelname)s" + "- %(message)s..."`, so the separator between the
level field and the message field is `"- "`, not `" - "`.  At a
concrete record the file formatter output differs from the layout the
claim states (here `spec_layout`, modelled from the spec's words), and
so does the colorized output. -/
theorem c3_counterexample :
    file_handler_format sampleRecord =
      "2024-01-01 10:00:00 - main - INFO- hello (a.py:3)" ∧
    file_handler_format sampleRecord ≠ spec_layout sampleRecord ∧
    SetColor_format sampleRecord =
      grey ++ "2024-01-01 10:00:00 - main - INFO- hello (a.py:3)" ++ reset ∧
    SetColor_format sampleRecord ≠ grey ++ spec_layout sampleRecord ++ reset := by
  refine ⟨by decide, by decide, by decide, by decide⟩

/-- Claim C3 (amended): both formatters render the layout
`"<timestamp> - <function> - <level>- <message> (<file>:<line>)"` — with
`"- "` (no leading space) between the level and the message — the file
handler plainly, and `SetColor.format` wrapped in the selected color
escape and the reset escape. -/
theorem c3_layout (r : LogRecord) :
    file_handler_format r =
      r.asctime ++ " - " ++ r.funcName ++ " - " ++ levelname r.levelno ++
        "- " ++ r.message ++ " (" ++ r.filename ++ ":" ++ toString r.lineno ++ ")" ∧
    SetColor_format r =
      (FORMATS_get (.level r.levelno)).pre ++
        (r.asctime ++ " - " ++ r.funcName ++ " - " ++ levelname r.levelno ++
          "- " ++ r.message ++ " (" ++ r.filename ++ ":" ++ toString r.lineno ++ ")") ++
        reset := by
  constructor
  · rfl
  · show (FORMATS_get (.level r.levelno)).pre ++ log_format_filled r ++
        (FORMATS_get (.level r.levelno)).post = _
    rw [FORMATS_get_post]
    rfl

/-- Claim C4 (confirmed): for a record whose severity is none of the
recognized levels, `SetColor.format` falls back to the plain/grey
default template and renders the record with the default layout (the
lookup is total, so nothing can be raised). -/
theorem c4_unknown_level_fallback (r : LogRecord)
    (h : r.levelno ∉ ([10, 20, 30, 40, 50] : List Nat)) :
    SetColor_format r = grey ++ log_format_filled r ++ reset := by
  simp only [List.mem_cons, List.not_mem_nil, or_false, not_or] at h
  obtain ⟨h10, h20, h30, h40, h50⟩ := h
  show (FORMATS_get (.level r.levelno)).pre ++ log_format_filled r ++
      (FORMATS_get (.level r.levelno)).post = _
  rw [FORMATS_get_level]
  simp [h30, h40, h50]

/-- Witness for C4 at the unrecognized severity 99. -/
theorem c4_witness :
    ((⟨"t", "f", 99, "m", "a.py", 1⟩ : LogRecord).levelno ∉
      ([10, 20, 30, 40, 50] : List Nat)) ∧
    SetColor_format ⟨"t", "f", 99, "m", "a.py", 1⟩ =
      grey ++ log_format_filled ⟨"t", "f", 99, "m", "a.py", 1⟩ ++ reset :=
  ⟨by decide, c4_unknown_level_fallback ⟨"t", "f", 99, "m", "a.py", 1⟩ (by decide)⟩

/-- Helper: once stderr holds the redirector and one installation has
happened, further `SetLogger` calls change neither. -/
theorem SetLogger_inv (seq : List SetLoggerArgs) (st : ProcState)
    (h : st.stderr = .redirector 40 ∧ st.installs = 1) :
    (seq.foldl SetLogger_init st).stderr = .redirector 40 ∧
    (seq.foldl SetLogger_init st).installs = 1 := by
  induction seq generalizing st with
  | nil => exact h
  | cons a rest ih =>
    apply ih
    simp [SetLogger_init, h.1, hasLoggerAttr, h.2]

/-- Claim C5 (confirmed): over any sequence of `SetLogger` invocations
a `StreamToLogger` is installed over stderr at most once; any nonempty
sequence leaves stderr bound to that single redirector (default
severity 40) with exactly one installation having happened. -/
theorem c5_redirect_once :
    (∀ seq : List SetLoggerArgs,
      (seq.foldl SetLogger_init initialState).installs ≤ 1) ∧
    (∀ a : SetLoggerArgs, ∀ seq : List SetLoggerArgs,
      ((a :: seq).foldl SetLogger_init initialState).stderr = .redirector 40 ∧
      ((a :: seq).foldl SetLogger_init initialState).installs = 1) := by
  have hstep : ∀ a : SetLoggerArgs,
      (SetLogger_init initialState a).stderr = .redirector 40 ∧
      (SetLogger_init initialState a).installs = 1 := by
    intro a
    simp [SetLogger_init, initialState, hasLoggerAttr]
  constructor
  · intro seq
    cases seq with
    | nil => decide
    | cons a rest =>
      have h := SetLogger_inv rest (SetLogger_init initialState a) (hstep a)
      simp only [List.foldl_cons]
      omega
  · intro a seq
    exact SetLogger_inv seq (SetLogger_init initialState a) (hstep a)

/-- Claim C6 (confirmed): a fresh `StreamToLogger` with the default
severity, given `write("hello\n")`, makes exactly one log call, at
severity 40 (`logging.ERROR`), with message `"hello"`, and its buffer
stays empty. -/
theorem c6_write_hello :
    StreamToLogger.write {} "hello\n" = ({}, [⟨40, "hello"⟩]) := by
  decide

/-- Claim C7 fails as stated: no severity value selects the
bold-bright-red template — the `FORMATS` entry carrying
`bold_light_red` is keyed by the function `logging.exception`, which no
integer `record.levelno` equals, so the lookup never yields it. -/
theorem c7_counterexample :
    ¬ ∃ n : Nat, FORMATS_get (.level n) = ⟨bold_light_red, reset⟩ := by
  rintro ⟨n, hn⟩
  rw [FORMATS_get_level] at hn
  split at hn <;> first
    | exact absurd hn (by decide)
    | (split at hn <;> first
        | exact absurd hn (by decide)
        | (split at hn <;> exact absurd hn (by decide)))

/-- Claim C7 (amended): severity-keyed selection yields plain/grey for
DEBUG and INFO, yellow for WARNING, red for ERROR, bold-red for
CRITICAL, and plain/grey for every unrecognized level; the
bold-bright-red template sits in the table only under the non-severity
key `logging.exception` and is never selected by a severity. -/
theorem c7_style_selection :
    FORMATS_get (.level 10) = ⟨grey, reset⟩ ∧
    FORMATS_get (.level 20) = ⟨grey, reset⟩ ∧
    FORMATS_get (.level 30) = ⟨yellow, reset⟩ ∧
    FORMATS_get (.level 40) = ⟨red, reset⟩ ∧
    FORMATS_get (.level 50) = ⟨bold_red, reset⟩ ∧
    dict_get FORMATS .exceptionFn ⟨grey, reset⟩ = ⟨bold_light_red, reset⟩ ∧
    (∀ n : Nat, n ∉ ([10, 20, 30, 40, 50] : List Nat) →
      FORMATS_get (.level n) = ⟨grey, reset⟩) := by
  refine ⟨by decide, by decide, by decide, by decide, by decide, by decide, ?_⟩
  intro n hn
  simp only [List.mem_cons, List.not_mem_nil, or_false, not_or] at hn
  obtain ⟨h10, h20, h30, h40, h50⟩ := hn
  rw [FORMATS_get_level]
  simp [h30, h40, h50]

/-- Witness for C7: the fallback conjunct of `c7_style_selection`
evaluated at the unrecognized level 999. -/
theorem c7_witness :
    (999 : Nat) ∉ ([10, 20, 30, 40, 50] : List Nat) ∧
    FORMATS_get (.level 999) = ⟨grey, reset⟩ :=
  ⟨by decide, c7_style_selection.2.2.2.2.2.2 999 (by decide)⟩

/-- Claim C8 fails as stated: at a concrete INFO record the string
produced by `SetColor.format` does not end in `"(<file>:<line>)"` — the
reset escape follows the location suffix, so the location suffix is not
the final run of characters. -/
theorem c8_counterexample :
    ¬ (("(" ++ sampleRecord.filename ++ ":" ++ toString sampleRecord.lineno ++ ")").data
        <:+ (SetColor_format sampleRecord).data) := by
  decide

/-- Claim C8 (amended): for every record at a severity in
{DEBUG, INFO, WARNING, ERROR, CRITICAL}, the string produced by
`SetColor.format` ends in `"(<file>:<line>)"` immediately followed by
the color-reset escape, and contains the literal level name. -/
theorem c8_location_suffix (r : LogRecord)
    (_h : r.levelno ∈ ([10, 20, 30, 40, 50] : List Nat)) :
    (("(" ++ r.filename ++ ":" ++ toString r.lineno ++ ")" ++ reset).data
      <:+ (SetColor_format r).data) ∧
    ((levelname r.levelno).data <:+: (SetColor_format r).data) := by
  have hpost : SetColor_format r =
      (FORMATS_get (.level r.levelno)).pre ++ log_format_filled r ++ reset := by
    show (FORMATS_get (.level r.levelno)).pre ++ log_format_filled r ++
        (FORMATS_get (.level r.levelno)).post = _
    rw [FORMATS_get_post]
  constructor
  · refine ⟨((FORMATS_get (.level r.levelno)).pre ++ r.asctime ++ " - " ++ r.funcName ++
      " - " ++ levelname r.levelno ++ "- " ++ r.message ++ " ").data, ?_⟩
    rw [hpost]
    simp [log_format_filled, String.data_append, List.append_assoc, data_space_paren]
  · refine ⟨((FORMATS_get (.level r.levelno)).pre ++ r.asctime ++ " - " ++ r.funcName ++
      " - ").data,
      ("- " ++ r.message ++ " (" ++ r.filename ++ ":" ++ toString r.lineno ++ ")" ++
        reset).data, ?_⟩
    rw [hpost]
    simp [log_format_filled, String.data_append, List.append_assoc]

/-- Witness for C8 at the concrete INFO record `sampleRecord`. -/
theorem c8_witness :
    sampleRecord.levelno ∈ ([10, 20, 30, 40, 50] : List Nat) ∧
    ((("(" ++ sampleRecord.filename ++ ":" ++ toString sampleRecord.lineno ++ ")" ++
        reset).data <:+ (SetColor_format sampleRecord).data) ∧
      ((levelname sampleRecord.levelno).data <:+: (SetColor_format sampleRecord).data)) :=
  ⟨by decide, c8_location_suffix sampleRecord (by decide)⟩

/-- Claim C9 (confirmed): the defaults of `SetLogConfig` are level
`logging.INFO` (20), no file path, `max_bytes` 200000000 and
`backup_counts` 5; invoked with these defaults on a fresh root logger
it sets the level to 20 and attaches only the console handler — no
file handler. -/
theorem c9_defaults :
    ({} : LogConfigArgs) = ⟨20, none, 200000000, 5⟩ ∧
    (SetLogConfig_init emptyLogger {}).level = 20 ∧
    (SetLogConfig_init emptyLogger {}).handlers = [.console 20] := by
  refine ⟨rfl, rfl, rfl⟩

/-- Claim C10 (confirmed): a chunk made only of whitespace characters
(newlines included, the empty chunk included) makes `write` emit no log
call and leave the line buffer unchanged — trimming yields the empty
string, which splits into no lines. -/
theorem c10_whitespace_noop (t : StreamToLogger) (s : String)
    (h : ∀ c ∈ s.data, pyIsSpace c) :
    StreamToLogger.write t s = (t, []) := by
  have h1 : pyRstrip s = "" := by
    unfold pyRstrip
    have h2 : s.data.reverse.dropWhile pyIsSpace = [] :=
      List.dropWhile_eq_nil_iff.mpr (fun x hx => h x (List.mem_reverse.mp hx))
    rw [h2]
    rfl
  unfold StreamToLogger.write
  rw [h1]
  rfl

/-- Witness for C10 at the concrete all-whitespace chunk `" \n\t\n"`. -/
theorem c10_witness :
    (∀ c ∈ (" \n\t\n" : String).data, pyIsSpace c) ∧
    StreamToLogger.write {} " \n\t\n" = ({}, []) :=
  ⟨by decide, c10_whitespace_noop {} " \n\t\n" (by decide)⟩

end RcaToy
